import Mathlib

/-!
Verification development for the MathClock repository (LED matrix clock with
three mini games: Dino runner, Dodge falling blocks, Snake).

The definitions below are a shallow embedding of the C++ (Arduino) source:
  - game.ino                     : Dino runner engine
  - dodge_game.ino               : Dodge (falling blocks) engine
  - snake game tab (unnamed)     : Snake engine
  - input handling tab (unnamed) : mode dispatch, timeouts, settings
  - math_clock_v25 main sketch   : mode enumeration, main loop timeouts

Machine integers are modelled as Nat (times, speeds, scores; all stay small
and non-negative in the source) and Int (grid coordinates, which can go
negative during bounds checks).  `millis()` is an explicit `now : Nat`
parameter.  Calls to `random(...)` are explicit parameters: a Bool coin for
a 50/50 draw, a `Nat -> Cell` stream for repeated cell draws.  Timing gated
loops are modelled by the step function that runs when the gate fires.
-/

set_option maxRecDepth 8000

/-! ## Dino runner engine (game.ino) -/

/-- JUMP_DURATION_MS from game.ino. -/
def JUMP_DURATION_MS : Nat := 450

/-- INITIAL_GAME_SPEED from game.ino (ms per frame). -/
def INITIAL_GAME_SPEED : Nat := 100

/-- MIN_GAME_SPEED from game.ino (fastest the game can get). -/
def MIN_GAME_SPEED : Nat := 40

/-- SPEED_DECREASE from game.ino (speed reduction per obstacle cleared). -/
def SPEED_DECREASE : Nat := 1

/-- OBSTACLE_START_X from game.ino (right edge of grid). -/
def OBSTACLE_START_X : Int := 14

/-- PLAYER_X from game.ino (player position from left). -/
def PLAYER_X : Int := 1

/-- PLAYER_GROUND_Y from game.ino. -/
def PLAYER_GROUND_Y : Int := 3

/-- PLAYER_AIR_Y from game.ino. -/
def PLAYER_AIR_Y : Int := 0

/-- GROUND_OBSTACLE from game.ino (obstacle type on ground). -/
def GROUND_OBSTACLE : Nat := 0

/-- AIR_OBSTACLE from game.ino (obstacle type in air). -/
def AIR_OBSTACLE : Nat := 1

/-- Dino game state: the globals of game.ino
(playerY, isJumping, jumpTimer, obstacleX, obstacleType, gameSpeed,
frameTimer, score) together with the input flag irJumpTriggered set by
handleIRInput while the Dino game is active. -/
structure DinoState where
  playerY : Int
  isJumping : Bool
  jumpTimer : Nat
  obstacleX : Int
  obstacleType : Nat
  gameSpeed : Nat
  frameTimer : Nat
  score : Nat
  irJumpTriggered : Bool
  deriving DecidableEq, Repr

/-- First block of runDinoGame: handle jump input from the IR remote.
Source: if (irJumpTriggered and not isJumping) start the jump, record
jumpTimer = millis(), clear the flag.  Note the flag is NOT cleared when
the player is already jumping. -/
def dinoInputStep (now : Nat) (s : DinoState) : DinoState :=
  if s.irJumpTriggered = true ∧ s.isJumping = false then
    { s with isJumping := true, jumpTimer := now, irJumpTriggered := false }
  else s

/-- Second block of runDinoGame: end the jump after its duration.
Source: if (isJumping and millis() - jumpTimer > JUMP_DURATION_MS)
isJumping = false. -/
def dinoJumpEndStep (now : Nat) (s : DinoState) : DinoState :=
  if s.isJumping = true ∧ now - s.jumpTimer > JUMP_DURATION_MS then
    { s with isJumping := false }
  else s

/-- Third block of runDinoGame: update the player Y position.
Source: playerY = isJumping ? PLAYER_AIR_Y : PLAYER_GROUND_Y. -/
def dinoPlayerYStep (s : DinoState) : DinoState :=
  { s with playerY := if s.isJumping then PLAYER_AIR_Y else PLAYER_GROUND_Y }

/-- Fourth block of runDinoGame: move the obstacle and spawn a new one when
it leaves the screen.  Runs when millis() - frameTimer > gameSpeed.
randType is the value of random(0, 2) used for the new obstacle type. -/
def dinoFrameStep (now : Nat) (randType : Nat) (s : DinoState) : DinoState :=
  if now - s.frameTimer > s.gameSpeed then
    let ox := s.obstacleX - 1
    if ox < 0 then
      { s with
        obstacleX := OBSTACLE_START_X,
        obstacleType := randType,
        score := s.score + 1,
        gameSpeed :=
          if s.gameSpeed > MIN_GAME_SPEED then s.gameSpeed - SPEED_DECREASE
          else s.gameSpeed,
        frameTimer := now }
    else { s with obstacleX := ox, frameTimer := now }
  else s

/-- Collision detection block of runDinoGame.  Source: collision is set
only when obstacleX == PLAYER_X, and then only if the obstacle type is
GROUND_OBSTACLE with the player not jumping, or AIR_OBSTACLE with the
player jumping. -/
def dinoCollision (s : DinoState) : Bool :=
  s.obstacleX == PLAYER_X &&
    ((s.obstacleType == GROUND_OBSTACLE && !s.isJumping) ||
     (s.obstacleType == AIR_OBSTACLE && s.isJumping))

/-- One tick of runDinoGame (game.ino): input, jump end, player Y, frame
advance, then collision detection on the updated state.  Returns the
updated state and the collision flag (true means handleGameOver runs). -/
def runDinoGame (now : Nat) (randType : Nat) (s : DinoState) :
    DinoState × Bool :=
  let s1 := dinoPlayerYStep (dinoJumpEndStep now (dinoInputStep now s))
  let s2 := dinoFrameStep now randType s1
  (s2, dinoCollision s2)

/-- The state reset performed at the end of handleGameOver in game.ino. -/
def handleGameOver (s : DinoState) : DinoState :=
  { s with
    score := 0,
    gameSpeed := INITIAL_GAME_SPEED,
    obstacleX := OBSTACLE_START_X,
    obstacleType := GROUND_OBSTACLE,
    playerY := PLAYER_GROUND_Y,
    isJumping := false }

/-- Concrete Dino state used to exercise the buffered jump input: the
player is mid jump (since time 0) and a jump input has arrived during the
jump, so irJumpTriggered is still set.  frameTimer is in the future so the
frame gate stays closed during the ticks considered. -/
def dinoCexState : DinoState :=
  { playerY := 0, isJumping := true, jumpTimer := 0, obstacleX := 10,
    obstacleType := 0, gameSpeed := 100, frameTimer := 1000, score := 0,
    irJumpTriggered := true }

/-! ## Dodge engine (dodge_game.ino) -/

/-- DODGE_COLS from dodge_game.ino. -/
def DODGE_COLS : Int := 15

/-- DODGE_ROWS from dodge_game.ino. -/
def DODGE_ROWS : Int := 10

/-- DODGE_PLAYER_Y from dodge_game.ino (bottom row of the 10 row field). -/
def DODGE_PLAYER_Y : Int := 9

/-- DODGE_INITIAL_SPEED from dodge_game.ino (ms per block step). -/
def DODGE_INITIAL_SPEED : Nat := 160

/-- DODGE_MIN_SPEED from dodge_game.ino, commented as the fastest speed. -/
def DODGE_MIN_SPEED : Nat := 35

/-- DODGE_SPEED_DECREASE from dodge_game.ino (ms faster per block). -/
def DODGE_SPEED_DECREASE : Nat := 2

/-- The DodgeBlock struct of dodge_game.ino: leftmost column, current row,
width (1 to 3 columns) and the active flag. -/
structure DodgeBlock where
  x : Int
  y : Int
  width : Int
  active : Bool
  deriving DecidableEq, Repr

/-- Dodge game state: the globals dodgePlayerX, dodgeSpeed, dodgeScore and
the two element array dodgeBlocks, given here as block0 and block1. -/
structure DodgeState where
  dodgePlayerX : Int
  dodgeSpeed : Nat
  dodgeScore : Nat
  block0 : DodgeBlock
  block1 : DodgeBlock
  deriving DecidableEq, Repr

/-- blockHitsPlayer from dodge_game.ino: true when the player column lies
in the half open horizontal span [bx, bx + bw) of a block. -/
def blockHitsPlayer (dodgePlayerX bx bw : Int) : Bool :=
  decide (dodgePlayerX ≥ bx) && decide (dodgePlayerX < bx + bw)

/-- spawnBlock from dodge_game.ino, with the two random draws (width
random(1, 4) and x random(0, maxX + 1)) passed in explicitly. -/
def spawnBlock (w xpos : Int) : DodgeBlock :=
  { x := xpos, y := 0, width := w, active := true }

/-- The speed update applied once per retired block in runDodgeGame:
if (dodgeSpeed > DODGE_MIN_SPEED) dodgeSpeed -= DODGE_SPEED_DECREASE.
Note the decrement is not clamped to DODGE_MIN_SPEED. -/
def dodgeSpeedStep (dodgeSpeed : Nat) : Nat :=
  if dodgeSpeed > DODGE_MIN_SPEED then dodgeSpeed - DODGE_SPEED_DECREASE
  else dodgeSpeed

/-- Advance one block slot inside the frame tick of runDodgeGame: an
active block moves down one row; if it passed the bottom row it is
retired, the score increments and the speed update runs.  Returns the new
score, speed and block. -/
def dodgeAdvanceOne (sc sp : Nat) (b : DodgeBlock) : Nat × Nat × DodgeBlock :=
  if b.active then
    let y2 := b.y + 1
    if y2 > DODGE_PLAYER_Y then
      (sc + 1, dodgeSpeedStep sp, { b with y := y2, active := false })
    else
      (sc, sp, { b with y := y2 })
  else (sc, sp, b)

/-- The block advance portion of the frame tick: both slots advanced in
array order, threading score and speed. -/
def dodgeAdvance (s : DodgeState) : DodgeState :=
  let r0 := dodgeAdvanceOne s.dodgeScore s.dodgeSpeed s.block0
  let r1 := dodgeAdvanceOne r0.1 r0.2.1 s.block1
  { s with
    dodgeScore := r1.1, dodgeSpeed := r1.2.1,
    block0 := r0.2.2, block1 := r1.2.2 }

/-- Target concurrent block count from runDodgeGame.  Source: targetBlocks
starts at 1; score at least 15 forces 2; otherwise score at least 5 draws
random(0, 2) and uses 2 exactly when the draw is 0.  The coin argument is
the predicate random(0, 2) == 0. -/
def targetBlocksFor (dodgeScore : Nat) (coin : Bool) : Nat :=
  if dodgeScore ≥ 15 then 2
  else if dodgeScore ≥ 5 then (if coin then 2 else 1)
  else 1

/-- Number of active blocks among the two slots (the activeCount local of
runDodgeGame, recomputed after the advance loop). -/
def activeCount (b0 b1 : DodgeBlock) : Nat :=
  (if b0.active then 1 else 0) + (if b1.active then 1 else 0)

/-- The refill loop of runDodgeGame: walk the slots in order and spawn
into every inactive slot while the active count is below the target.
spawn0 and spawn1 are the (width, x) random draws used if the respective
slot spawns. -/
def dodgeRefill (target : Nat) (spawn0 spawn1 : Int × Int)
    (b0 b1 : DodgeBlock) : DodgeBlock × DodgeBlock :=
  let cnt := activeCount b0 b1
  let r0 :=
    if b0.active = false ∧ cnt < target then
      (spawnBlock spawn0.1 spawn0.2, cnt + 1)
    else (b0, cnt)
  let b1r :=
    if b1.active = false ∧ r0.2 < target then spawnBlock spawn1.1 spawn1.2
    else b1
  (r0.1, b1r)

/-- One frame tick of runDodgeGame (runs when the frame timer fires):
advance both blocks, recompute the target block count from the updated
score and the coin, then refill empty slots up to the target. -/
def dodgeFrameStep (coin : Bool) (spawn0 spawn1 : Int × Int)
    (s : DodgeState) : DodgeState :=
  let a := dodgeAdvance s
  let t := targetBlocksFor a.dodgeScore coin
  let bb := dodgeRefill t spawn0 spawn1 a.block0 a.block1
  { a with block0 := bb.1, block1 := bb.2 }

/-- Collision test for one block slot in runDodgeGame: an active block
whose row is at least DODGE_PLAYER_Y - 1 and whose span covers the player
column triggers handleDodgeGameOver. -/
def dodgeBlockCollides (dodgePlayerX : Int) (b : DodgeBlock) : Bool :=
  b.active && decide (b.y ≥ DODGE_PLAYER_Y - 1) &&
    blockHitsPlayer dodgePlayerX b.x b.width

/-- Collision detection loop of runDodgeGame over the two slots. -/
def dodgeCollision (s : DodgeState) : Bool :=
  dodgeBlockCollides s.dodgePlayerX s.block0 ||
    dodgeBlockCollides s.dodgePlayerX s.block1

/-! ## Snake engine (snake game tab) -/

/-- SNAKE_COLS from the snake tab. -/
def SNAKE_COLS : Int := 15

/-- SNAKE_ROWS from the snake tab. -/
def SNAKE_ROWS : Int := 10

/-- SNAKE_MAX_LENGTH from the snake tab (hard cap on segments). -/
def SNAKE_MAX_LENGTH : Nat := 24

/-- SNAKE_INITIAL_SPEED from the snake tab (ms per move). -/
def SNAKE_INITIAL_SPEED : Nat := 300

/-- SNAKE_MIN_SPEED from the snake tab (fastest). -/
def SNAKE_MIN_SPEED : Nat := 80

/-- SNAKE_SPEED_STEP from the snake tab. -/
def SNAKE_SPEED_STEP : Nat := 3

/-- DIR_UP from the snake tab. -/
def DIR_UP : Nat := 0

/-- DIR_RIGHT from the snake tab. -/
def DIR_RIGHT : Nat := 1

/-- DIR_DOWN from the snake tab. -/
def DIR_DOWN : Nat := 2

/-- DIR_LEFT from the snake tab. -/
def DIR_LEFT : Nat := 3

/-- Grid cell, the SnakeSegment struct (x, y) of the snake tab. -/
abbrev Cell := Int × Int

/-- Snake game state: the snakeBody array restricted to its first
snakeLength entries (head first), the current and pending direction, the
speed, the score and the food cell. -/
structure SnakeState where
  snakeBody : List Cell
  snakeDir : Nat
  snakePendingDir : Nat
  snakeSpeed : Nat
  snakeScore : Nat
  food : Cell
  deriving DecidableEq, Repr

/-- The occupancy scan used by spawnFood and by the self collision check:
true when some listed segment equals the cell. -/
def bodyOccupies (body : List Cell) (c : Cell) : Bool :=
  body.any (fun seg => seg == c)

/-- The retry loop of spawnFood.  rand gives the successive draws of
(random(0, SNAKE_COLS), random(0, SNAKE_ROWS)); t is the index of the next
draw and the second Nat is the number of retries left after this draw.
The loop exits early on a free cell, and after the last draw it exits
regardless, keeping that draw. -/
def spawnFoodGo (rand : Nat → Cell) (body : List Cell) (t : Nat) :
    Nat → Cell
  | 0 => rand t
  | fuel + 1 =>
    let c := rand t
    if bodyOccupies body c then spawnFoodGo rand body (t + 1) fuel else c

/-- spawnFood from the snake tab: up to 200 random draws; the do while
loop breaks on the first unoccupied draw, and foodX, foodY are assigned
the final draw unconditionally when the retries run out. -/
def spawnFood (rand : Nat → Cell) (body : List Cell) : Cell :=
  spawnFoodGo rand body 0 199

/-- The four direction input flags set by handleIRInput while the snake
game is active (snakeTurnUp, snakeTurnDown, snakeTurnLeft,
snakeTurnRight). -/
structure TurnFlags where
  snakeTurnUp : Bool
  snakeTurnDown : Bool
  snakeTurnLeft : Bool
  snakeTurnRight : Bool
  deriving DecidableEq, Repr

/-- No direction input pending. -/
def noTurn : TurnFlags := ⟨false, false, false, false⟩

/-- The flag set produced by a single direction input d. -/
def singleTurn (d : Nat) : TurnFlags :=
  { snakeTurnUp := d == DIR_UP, snakeTurnDown := d == DIR_DOWN,
    snakeTurnLeft := d == DIR_LEFT, snakeTurnRight := d == DIR_RIGHT }

/-- The buffered direction block of runSnakeGame: each flag writes the
pending direction unless it would reverse the current heading, in the
source order up, down, left, right.  Returns the new pending direction
(the flags are cleared afterwards by the source). -/
def applyTurnFlags (snakeDir snakePendingDir : Nat) (f : TurnFlags) : Nat :=
  let p := if f.snakeTurnUp && !(snakeDir == DIR_DOWN) then DIR_UP
           else snakePendingDir
  let p := if f.snakeTurnDown && !(snakeDir == DIR_UP) then DIR_DOWN else p
  let p := if f.snakeTurnLeft && !(snakeDir == DIR_RIGHT) then DIR_LEFT
           else p
  let p := if f.snakeTurnRight && !(snakeDir == DIR_LEFT) then DIR_RIGHT
           else p
  p

/-- New head computation of the movement tick: the four direction guards
of runSnakeGame applied to the current head cell. -/
def snakeNewHead (dir : Nat) (h : Cell) : Cell :=
  let newY := if dir == DIR_UP then h.2 - 1
              else if dir == DIR_DOWN then h.2 + 1 else h.2
  let newX := if dir == DIR_LEFT then h.1 - 1
              else if dir == DIR_RIGHT then h.1 + 1 else h.1
  (newX, newY)

/-- The wall collision test of the movement tick. -/
def snakeWallHit (c : Cell) : Bool :=
  decide (c.1 < 0) || decide (c.1 ≥ SNAKE_COLS) ||
    decide (c.2 < 0) || decide (c.2 ≥ SNAKE_ROWS)

/-- The movement tick of runSnakeGame (runs when the move timer fires):
commit the pending direction, compute the new head, die on a wall hit or
on a hit against any body segment except the last, otherwise grow when
eating (below the cap), shift the body, and on eating bump the score,
ramp the speed every 5 foods (clamped at SNAKE_MIN_SPEED) and respawn the
food.  none models handleSnakeDeath. -/
def snakeMoveTick (rand : Nat → Cell) (s : SnakeState) : Option SnakeState :=
  let dir := s.snakePendingDir
  let nh := snakeNewHead dir (s.snakeBody.headD (0, 0))
  if snakeWallHit nh = true then
    none
  else if bodyOccupies (s.snakeBody.take (s.snakeBody.length - 1)) nh
      = true then
    none
  else
    let ate := nh == s.food
    let grow := ate && decide (s.snakeBody.length < SNAKE_MAX_LENGTH)
    let body2 := if grow then nh :: s.snakeBody
                 else nh :: s.snakeBody.dropLast
    if ate then
      let sc := s.snakeScore + 1
      let sp :=
        if sc % 5 == 0 && decide (s.snakeSpeed > SNAKE_MIN_SPEED) then
          let sp2 := s.snakeSpeed - SNAKE_SPEED_STEP * 5
          if sp2 < SNAKE_MIN_SPEED then SNAKE_MIN_SPEED else sp2
        else s.snakeSpeed
      some { snakeBody := body2, snakeDir := dir,
             snakePendingDir := s.snakePendingDir, snakeSpeed := sp,
             snakeScore := sc, food := spawnFood rand body2 }
    else
      some { snakeBody := body2, snakeDir := dir,
             snakePendingDir := s.snakePendingDir,
             snakeSpeed := s.snakeSpeed, snakeScore := s.snakeScore,
             food := s.food }

/-- resetSnake from the snake tab: three segments in the centre heading
right, initial speed and score, and a food spawn against the fresh body.
rand is the random stream consumed by that spawn. -/
def resetSnake (rand : Nat → Cell) : SnakeState :=
  let body : List Cell := [(7, 5), (6, 5), (5, 5)]
  { snakeBody := body, snakeDir := DIR_RIGHT, snakePendingDir := DIR_RIGHT,
    snakeSpeed := SNAKE_INITIAL_SPEED, snakeScore := 0,
    food := spawnFood rand body }

/-- One inter tick input application followed by the movement tick, the
order runSnakeGame uses: the turn flags are folded into the pending
direction first, then the timer gated move runs. -/
def snakeTickWithInput (f : TurnFlags) (rand : Nat → Cell)
    (s : SnakeState) : Option SnakeState :=
  snakeMoveTick rand
    { s with snakePendingDir := applyTurnFlags s.snakeDir s.snakePendingDir f }

/-- Random stream for the food spawn inside resetSnake in the concrete
run below: first draw (8, 5) is free and is kept. -/
def cexRandReset : Nat → Cell := fun _ => (8, 5)

/-- Random stream exhausting the spawnFood retries: every draw is (7, 5),
which is occupied throughout the spawn it is used for, so the final draw
is kept even though occupied. -/
def cexRandStuck : Nat → Cell := fun _ => (7, 5)

/-- Random stream whose first draw (0, 0) is free in the states where it
is consumed. -/
def cexRandFree : Nat → Cell := fun _ => (0, 0)

/-- A concrete four tick run from resetSnake: eat the food at (8, 5)
(after which the exhausted spawn parks the food on the body at (7, 5)),
then turn down, left and up; the final tick eats (7, 5) while that cell is
the tail, growing onto it. -/
def cexRun : Option SnakeState :=
  (snakeTickWithInput noTurn cexRandStuck (resetSnake cexRandReset)).bind
    (fun s1 => (snakeTickWithInput (singleTurn DIR_DOWN) cexRandFree s1).bind
      (fun s2 => (snakeTickWithInput (singleTurn DIR_LEFT) cexRandFree s2).bind
        (fun s3 => snakeTickWithInput (singleTurn DIR_UP) cexRandFree s3)))

/-- Constant random stream used to instantiate the spawnFood
characterisation at a concrete input. -/
def constFood : Nat → Cell := fun _ => (1, 1)

/-- Concrete snake state for the preservation witness: the reset body with
the food parked away from the body. -/
def snakeWitState : SnakeState :=
  { snakeBody := [(7, 5), (6, 5), (5, 5)], snakeDir := 1,
    snakePendingDir := 1, snakeSpeed := 300, snakeScore := 0,
    food := (0, 0) }

/-- The state one movement tick after snakeWitState (no food eaten). -/
def snakeWitState2 : SnakeState :=
  { snakeBody := [(8, 5), (7, 5), (6, 5)], snakeDir := 1,
    snakePendingDir := 1, snakeSpeed := 300, snakeScore := 0,
    food := (0, 0) }

/-! ## Mode controller timeouts (main sketch and input handling tab) -/

/-- The Mode enumeration of the main sketch. -/
inductive Mode where
  | CLOCK
  | SETTING
  | GAME
  | DODGE_GAME
  | GAME_SELECT
  | SET_TIME
  | SET_DATE
  | SNAKE_GAME
  deriving DecidableEq, Repr

/-- GAME_TIMEOUT_MS from the main sketch. -/
def GAME_TIMEOUT_MS : Nat := 15000

/-- SETTINGS_TIMEOUT_MS from the main sketch. -/
def SETTINGS_TIMEOUT_MS : Nat := 30000

/-- DODGE_TIMEOUT_MS from dodge_game.ino. -/
def DODGE_TIMEOUT_MS : Nat := 15000

/-- SNAKE_TIMEOUT_MS from the snake tab. -/
def SNAKE_TIMEOUT_MS : Nat := 20000

/-- GAME_SELECT timeout, the literal 10000 used in handleIRInput and in
runGameSelectMenu. -/
def GAME_SELECT_TIMEOUT_MS : Nat := 10000

/-- The idle timeout logic executed each tick for the current mode,
collected from the source: the main loop GAME case checks
lastGameIRActivity against GAME_TIMEOUT_MS; runDodgeGame and runSnakeGame
check lastGameIRActivity against their own windows; handleIRInput and
runGameSelectMenu check lastIRActivity against 10000 for GAME_SELECT;
runSettingsMenu checks lastActivity against SETTINGS_TIMEOUT_MS.  The
SET_TIME and SET_DATE handlers (runTimeSettingMode, runDateSettingMode
and the handleIRInput branches) contain no timeout check, and CLOCK has
none. -/
def modeTimeoutStep (now lastIRActivity lastGameIRActivity lastActivity : Nat) :
    Mode → Mode
  | Mode.GAME =>
    if now - lastGameIRActivity > GAME_TIMEOUT_MS then Mode.CLOCK
    else Mode.GAME
  | Mode.DODGE_GAME =>
    if now - lastGameIRActivity > DODGE_TIMEOUT_MS then Mode.CLOCK
    else Mode.DODGE_GAME
  | Mode.SNAKE_GAME =>
    if now - lastGameIRActivity > SNAKE_TIMEOUT_MS then Mode.CLOCK
    else Mode.SNAKE_GAME
  | Mode.GAME_SELECT =>
    if now - lastIRActivity > GAME_SELECT_TIMEOUT_MS then Mode.CLOCK
    else Mode.GAME_SELECT
  | Mode.SETTING =>
    if now - lastActivity > SETTINGS_TIMEOUT_MS then Mode.CLOCK
    else Mode.SETTING
  | m => m

/-! ## High score persistence (three engines) -/

/-- State relevant to one high score persist operation: the score of the
current run, the in RAM high score, the persisted EEPROM value and a
count of EEPROM.put calls (the write endurance side effect). -/
structure ScoreStore where
  score : Nat
  highScore : Nat
  eeprom : Nat
  writes : Nat
  deriving DecidableEq, Repr

/-- saveHighScore from game.ino: write the high score to EEPROM only if
the run score strictly exceeds it. -/
def saveHighScore (s : ScoreStore) : ScoreStore :=
  if s.score > s.highScore then
    { s with highScore := s.score, eeprom := s.score, writes := s.writes + 1 }
  else s

/-- saveDodgeHighScore from dodge_game.ino, same guard over the dodge
score and dodge high score. -/
def saveDodgeHighScore (s : ScoreStore) : ScoreStore :=
  if s.score > s.highScore then
    { s with highScore := s.score, eeprom := s.score, writes := s.writes + 1 }
  else s

/-- saveSnakeHighScore from the snake tab, same guard over the snake
score and snake high score. -/
def saveSnakeHighScore (s : ScoreStore) : ScoreStore :=
  if s.score > s.highScore then
    { s with highScore := s.score, eeprom := s.score, writes := s.writes + 1 }
  else s

/-! ## Theorems -/

/-- C1: the claim states that no engine interval ever goes strictly below
its configured minimum (Dodge: 35 ms).  The Dodge per retirement speed
update, iterated 63 times from the initial 160 ms, yields 34 ms, one step
below the floor: the guard subtracts 2 whenever the speed still exceeds
35 and never clamps, so from 36 it reaches 34.  This contradicts the
source comment that DODGE_MIN_SPEED is the fastest speed. -/
theorem C1_dodge_interval_breaks_floor :
    dodgeSpeedStep^[63] DODGE_INITIAL_SPEED = 34 ∧ 34 < DODGE_MIN_SPEED := by
  constructor
  · decide
  · decide

/-- Supplementary to C1: the Dino frame step never raises the interval,
keeps it at or above MIN_GAME_SPEED, and never lowers the score. -/
theorem dinoFrameStep_interval_monotone :
    ∀ (now randType : Nat) (s : DinoState),
      (dinoFrameStep now randType s).gameSpeed ≤ s.gameSpeed ∧
      (MIN_GAME_SPEED ≤ s.gameSpeed →
        MIN_GAME_SPEED ≤ (dinoFrameStep now randType s).gameSpeed) ∧
      s.score ≤ (dinoFrameStep now randType s).score := by
  intro now randType s
  simp only [dinoFrameStep, MIN_GAME_SPEED, SPEED_DECREASE]
  split
  · split
    · dsimp only
      refine ⟨?_, ?_, ?_⟩
      · split <;> omega
      · intro h
        split <;> omega
      · omega
    · exact ⟨Nat.le_refl _, fun h => h, Nat.le_refl _⟩
  · exact ⟨Nat.le_refl _, fun h => h, Nat.le_refl _⟩

/-- Supplementary to C1: the Dodge per retirement speed update never
raises the interval and, because the guard fires while the speed exceeds
35 and subtracts 2, the true invariant floor is 34, one below the
configured minimum. -/
theorem dodgeSpeedStep_floor :
    ∀ sp : Nat, 34 ≤ sp →
      34 ≤ dodgeSpeedStep sp ∧ dodgeSpeedStep sp ≤ sp := by
  intro sp h
  simp only [dodgeSpeedStep, DODGE_MIN_SPEED, DODGE_SPEED_DECREASE]
  split <;> omega

/-- Supplementary to C1: a Dodge frame tick never raises the interval and
never lowers the score. -/
theorem dodgeFrameStep_monotone :
    ∀ (coin : Bool) (sp0 sp1 : Int × Int) (s : DodgeState),
      (dodgeFrameStep coin sp0 sp1 s).dodgeSpeed ≤ s.dodgeSpeed ∧
      s.dodgeScore ≤ (dodgeFrameStep coin sp0 sp1 s).dodgeScore := by
  intro coin sp0 sp1 s
  simp only [dodgeFrameStep, dodgeAdvance, dodgeAdvanceOne, dodgeSpeedStep,
    DODGE_MIN_SPEED, DODGE_SPEED_DECREASE]
  constructor <;> (repeat' split) <;> (dsimp only; omega)

/-- Supplementary to C1: a non death Snake movement tick never raises the
interval, keeps it at or above SNAKE_MIN_SPEED, and never lowers the
score. -/
theorem snakeMoveTick_interval_monotone :
    ∀ (rand : Nat → Cell) (s s2 : SnakeState),
      snakeMoveTick rand s = some s2 →
      s2.snakeSpeed ≤ s.snakeSpeed ∧
      (SNAKE_MIN_SPEED ≤ s.snakeSpeed →
        SNAKE_MIN_SPEED ≤ s2.snakeSpeed) ∧
      s.snakeScore ≤ s2.snakeScore := by
  intro rand s s2 h
  simp only [snakeMoveTick] at h
  split at h
  · exact absurd h (by simp)
  · split at h
    · exact absurd h (by simp)
    · rcases ite_eq_iff.mp h with ⟨_, h4⟩ | ⟨_, h4⟩ <;>
        injection h4 with h5 <;> subst h5
      · dsimp only
        simp only [SNAKE_MIN_SPEED, SNAKE_SPEED_STEP, Bool.and_eq_true,
          decide_eq_true_eq, beq_iff_eq]
        refine ⟨?_, ?_, ?_⟩
        · split
          · rename_i hc
            split <;> omega
          · omega
        · intro hf
          split
          · rename_i hc
            split <;> omega
          · omega
        · omega
      · exact ⟨Nat.le_refl _, fun hf => hf, Nat.le_refl _⟩

/-- C2 counterexample: the claim states every mode other than Clock
(naming SetTime and SetDate in particular) returns to Clock once its
idle window is exceeded, but the SET_TIME and SET_DATE handlers contain
no timeout check at all: after an arbitrarily long idle period the tick
leaves the mode unchanged. -/
theorem C2_settime_setdate_never_time_out :
    modeTimeoutStep 10000000 0 0 0 Mode.SET_TIME = Mode.SET_TIME ∧
    modeTimeoutStep 10000000 0 0 0 Mode.SET_DATE = Mode.SET_DATE ∧
    Mode.SET_TIME ≠ Mode.CLOCK ∧ Mode.SET_DATE ≠ Mode.CLOCK := by decide

/-- C2 amended: the game modes, GameSelect and Settings each transition
to Clock exactly on a tick whose idle duration (against the relevant
activity timestamp) exceeds their window, hence on the first such tick
and never earlier; SetTime and SetDate never transition by timeout, and
Clock never transitions. -/
theorem C2_timeout_characterisation :
    ∀ now lastIR lastGameIR lastAct : Nat,
      (modeTimeoutStep now lastIR lastGameIR lastAct Mode.GAME = Mode.CLOCK ↔
        now - lastGameIR > GAME_TIMEOUT_MS) ∧
      (modeTimeoutStep now lastIR lastGameIR lastAct Mode.DODGE_GAME =
          Mode.CLOCK ↔ now - lastGameIR > DODGE_TIMEOUT_MS) ∧
      (modeTimeoutStep now lastIR lastGameIR lastAct Mode.SNAKE_GAME =
          Mode.CLOCK ↔ now - lastGameIR > SNAKE_TIMEOUT_MS) ∧
      (modeTimeoutStep now lastIR lastGameIR lastAct Mode.GAME_SELECT =
          Mode.CLOCK ↔ now - lastIR > GAME_SELECT_TIMEOUT_MS) ∧
      (modeTimeoutStep now lastIR lastGameIR lastAct Mode.SETTING =
          Mode.CLOCK ↔ now - lastAct > SETTINGS_TIMEOUT_MS) ∧
      modeTimeoutStep now lastIR lastGameIR lastAct Mode.SET_TIME =
        Mode.SET_TIME ∧
      modeTimeoutStep now lastIR lastGameIR lastAct Mode.SET_DATE =
        Mode.SET_DATE ∧
      modeTimeoutStep now lastIR lastGameIR lastAct Mode.CLOCK =
        Mode.CLOCK := by
  intro now a g l
  refine ⟨?_, ?_, ?_, ?_, ?_, rfl, rfl, rfl⟩ <;>
    · simp only [modeTimeoutStep]
      split <;> simp_all

/-- C3: in the Dino engine a collision occurs exactly when the obstacle
column equals the fixed player column and the obstacle type matches the
vertical state (ground obstacle with a grounded player or air obstacle
with a jumping player); a matching column with a mismatched type and
state never collides.  The second conjunct ties the per tick collision
flag of runDinoGame to this predicate on the updated state. -/
theorem C3_dino_collision_iff :
    (∀ s : DinoState, dinoCollision s = true ↔
      (s.obstacleX = PLAYER_X ∧
        ((s.obstacleType = GROUND_OBSTACLE ∧ s.isJumping = false) ∨
         (s.obstacleType = AIR_OBSTACLE ∧ s.isJumping = true)))) ∧
    (∀ (now randType : Nat) (s : DinoState),
      (runDinoGame now randType s).2 =
        dinoCollision (runDinoGame now randType s).1) := by
  constructor
  · intro s
    cases hj : s.isJumping <;>
      simp [dinoCollision, hj, PLAYER_X, GROUND_OBSTACLE, AIR_OBSTACLE]
  · intro now randType s
    rfl

/-- C6 counterexample: the claim states a collision can occur only when a
block occupies a row at or past the player row (DODGE_PLAYER_Y = 9), but
the source checks y at or past DODGE_PLAYER_Y - 1: a block at row 8
covering the player column already triggers game over. -/
theorem C6_collision_below_player_row :
    dodgeCollision
      { dodgePlayerX := 7, dodgeSpeed := 160, dodgeScore := 0,
        block0 := { x := 6, y := 8, width := 3, active := true },
        block1 := { x := 0, y := 0, width := 1, active := false } } = true ∧
    (8 : Int) < DODGE_PLAYER_Y := by decide

/-- C6 amended: game over in the Dodge engine occurs exactly when some
active block occupies a row at or past one row above the player row (the
player sprite is two cells tall, so the check row is DODGE_PLAYER_Y - 1)
with the player column inside its half open span [x, x + width); a span
strictly excluding the player column never ends the game. -/
theorem C6_dodge_collision_characterisation :
    ∀ s : DodgeState, dodgeCollision s = true ↔
      ((s.block0.active = true ∧ DODGE_PLAYER_Y - 1 ≤ s.block0.y ∧
          s.block0.x ≤ s.dodgePlayerX ∧
          s.dodgePlayerX < s.block0.x + s.block0.width) ∨
       (s.block1.active = true ∧ DODGE_PLAYER_Y - 1 ≤ s.block1.y ∧
          s.block1.x ≤ s.dodgePlayerX ∧
          s.dodgePlayerX < s.block1.x + s.block1.width)) := by
  intro s
  simp [dodgeCollision, dodgeBlockCollides, blockHitsPlayer, ge_iff_le,
    and_assoc]

/-- C9: each of the three high score persist operations performs an
EEPROM write exactly when the run score strictly exceeds the in RAM high
score, and each operation is idempotent: an immediately repeated call
performs no further write and leaves the stored value (and the whole
store) unchanged. -/
theorem C9_highscore_write_iff_and_idempotent :
    ∀ s : ScoreStore,
      ((saveHighScore s).writes = s.writes + 1 ↔ s.highScore < s.score) ∧
      saveHighScore (saveHighScore s) = saveHighScore s ∧
      ((saveDodgeHighScore s).writes = s.writes + 1 ↔
        s.highScore < s.score) ∧
      saveDodgeHighScore (saveDodgeHighScore s) = saveDodgeHighScore s ∧
      ((saveSnakeHighScore s).writes = s.writes + 1 ↔
        s.highScore < s.score) ∧
      saveSnakeHighScore (saveSnakeHighScore s) = saveSnakeHighScore s := by
  intro s
  refine ⟨?_, ?_, ?_, ?_, ?_, ?_⟩ <;>
    · simp only [saveHighScore, saveDodgeHighScore, saveSnakeHighScore]
      split
      · simp_all
      · simp_all

/-- Helper: the target block count policy always yields 1 or 2. -/
theorem targetBlocksFor_bounds :
    ∀ (sc : Nat) (coin : Bool),
      1 ≤ targetBlocksFor sc coin ∧ targetBlocksFor sc coin ≤ 2 := by
  intro sc coin
  by_cases h15 : sc ≥ 15 <;> by_cases h5 : sc ≥ 5 <;> cases coin <;>
    simp [targetBlocksFor, h15, h5]

/-- Helper: the refill loop of runDodgeGame raises the active block count
to the target when it was below it and touches nothing otherwise, so the
resulting count is the maximum of the incoming count and the target. -/
theorem dodgeRefill_activeCount :
    ∀ (t : Nat) (sp0 sp1 : Int × Int) (b0 b1 : DodgeBlock),
      1 ≤ t → t ≤ 2 →
      activeCount (dodgeRefill t sp0 sp1 b0 b1).1
          (dodgeRefill t sp0 sp1 b0 b1).2 =
        max (activeCount b0 b1) t := by
  intro t sp0 sp1 b0 b1 h1 h2
  interval_cases t <;> cases hb0 : b0.active <;> cases hb1 : b1.active <;>
    · simp [dodgeRefill, activeCount, spawnBlock, hb0, hb1]

/-- C5: on a frame tick the target concurrent block count is exactly 1
below score 5, exactly 2 from score 15 on, and the fifty fifty draw
(2 on coin true, 1 on coin false) for scores 5 to 14 inclusive, score 14
included in the random band; and the refill performed in the same frame
tick right after the advance raises the active count to that target
(computed from the post advance score). -/
theorem C5_dodge_target_blocks :
    ∀ (sc : Nat) (coin : Bool),
      (sc < 5 → targetBlocksFor sc coin = 1) ∧
      (15 ≤ sc → targetBlocksFor sc coin = 2) ∧
      (5 ≤ sc → sc ≤ 14 →
        targetBlocksFor sc coin = if coin then 2 else 1) ∧
      (∀ (spawn0 spawn1 : Int × Int) (s : DodgeState),
        activeCount (dodgeFrameStep coin spawn0 spawn1 s).block0
            (dodgeFrameStep coin spawn0 spawn1 s).block1 =
          max (activeCount (dodgeAdvance s).block0 (dodgeAdvance s).block1)
            (targetBlocksFor (dodgeAdvance s).dodgeScore coin)) := by
  intro sc coin
  refine ⟨?_, ?_, ?_, ?_⟩
  · intro h
    rw [targetBlocksFor, if_neg (by omega), if_neg (by omega)]
  · intro h
    rw [targetBlocksFor, if_pos (by omega)]
  · intro h1 h2
    rw [targetBlocksFor, if_neg (by omega), if_pos (by omega)]
  · intro spawn0 spawn1 s
    have hb := targetBlocksFor_bounds (dodgeAdvance s).dodgeScore coin
    simp only [dodgeFrameStep]
    exact dodgeRefill_activeCount _ spawn0 spawn1 _ _ hb.1 hb.2

/-- C5 witness: score 14 with coin false draws a single block (not forced
to 2), score 14 with coin true draws two, score 4 always one, score 15
always two. -/
theorem C5_dodge_target_blocks_witness :
    targetBlocksFor 14 false = 1 ∧ targetBlocksFor 14 true = 2 ∧
    targetBlocksFor 4 true = 1 ∧ targetBlocksFor 15 false = 2 := by
  refine ⟨?_, ?_, ?_, ?_⟩
  · simpa using (C5_dodge_target_blocks 14 false).2.2.1 (by omega) (by omega)
  · simpa using (C5_dodge_target_blocks 14 true).2.2.1 (by omega) (by omega)
  · simpa using (C5_dodge_target_blocks 4 true).1 (by omega)
  · simpa using (C5_dodge_target_blocks 15 false).2.1 (by omega)

/-- C4: starting from the quiescent inter tick situation (pending equals
the current heading, which is how every movement tick leaves it), a
single direction input equal to the 180 degree opposite of the heading
leaves the pending direction, and hence the heading applied at the next
movement tick, unchanged; any other single input becomes the applied
heading.  The second conjunct records that the movement tick commits the
pending direction as the new heading. -/
theorem C4_snake_reversal_rejected :
    ∀ dir input : Nat, dir < 4 → input < 4 →
      (applyTurnFlags dir dir (singleTurn input) =
        if input = (dir + 2) % 4 then dir else input) ∧
      (∀ (rand : Nat → Cell) (s s2 : SnakeState),
        snakeMoveTick rand s = some s2 →
          s2.snakeDir = s.snakePendingDir) := by
  intro dir input hd hi
  constructor
  · interval_cases dir <;> interval_cases input <;> decide
  · intro rand s s2 h
    simp only [snakeMoveTick] at h
    split at h
    · exact absurd h (by simp)
    · split at h
      · exact absurd h (by simp)
      · rcases ite_eq_iff.mp h with ⟨_, h2⟩ | ⟨_, h2⟩ <;>
          · injection h2 with h3
            subst h3
            rfl

/-- C4 witness: heading right (1), single input left (3, the opposite)
keeps the pending heading right. -/
theorem C4_snake_reversal_rejected_witness :
    applyTurnFlags 1 1 (singleTurn 3) = 1 := by
  simpa using (C4_snake_reversal_rejected 1 3 (by omega) (by omega)).1

/-- C7 counterexample: the claim states a jump input arriving during a
jump has no effect and never starts a jump, even after the current jump
ends.  In dinoCexState such an input has set irJumpTriggered during the
jump; the tick at 500 ms ends the jump but leaves the flag set, and the
next tick starts a fresh jump from that buffered input. -/
theorem C7_buffered_jump_restarts :
    (runDinoGame 500 0 dinoCexState).1.isJumping = false ∧
    (runDinoGame 500 0 dinoCexState).1.irJumpTriggered = true ∧
    (runDinoGame 501 0 (runDinoGame 500 0 dinoCexState).1).1.isJumping
      = true := by decide

/-- C7 amended: an input accepted while not jumping starts a jump of
fixed duration anchored at the current time and clears the flag; the
jump ends once the elapsed time exceeds JUMP_DURATION_MS regardless of
input; an input during a jump leaves the tick state unchanged (the jump
is neither cut nor extended) but the flag stays set, and it starts a new
jump on the first later tick that finds the player grounded. -/
theorem C7_jump_input_semantics :
    ∀ (now : Nat) (s : DinoState),
      (s.irJumpTriggered = true → s.isJumping = false →
        dinoInputStep now s =
          { s with isJumping := true, jumpTimer := now,
                   irJumpTriggered := false }) ∧
      (s.isJumping = true → dinoInputStep now s = s) ∧
      (s.isJumping = true → now - s.jumpTimer > JUMP_DURATION_MS →
        (dinoJumpEndStep now s).isJumping = false) ∧
      (s.isJumping = true → s.irJumpTriggered = true →
        now - s.jumpTimer > JUMP_DURATION_MS →
        ((dinoJumpEndStep now (dinoInputStep now s)).isJumping = false ∧
         (dinoJumpEndStep now (dinoInputStep now s)).irJumpTriggered
           = true ∧
         ∀ now2 : Nat,
           (dinoInputStep now2
             (dinoJumpEndStep now (dinoInputStep now s))).isJumping
             = true)) := by
  intro now s
  refine ⟨?_, ?_, ?_, ?_⟩
  · intro h1 h2
    simp [dinoInputStep, h1, h2]
  · intro h1
    simp [dinoInputStep, h1]
  · intro h1 h2
    simp [dinoJumpEndStep, h1, h2]
  · intro h1 h2 h3
    have e1 : dinoInputStep now s = s := by simp [dinoInputStep, h1]
    rw [e1]
    have e2 : dinoJumpEndStep now s = { s with isJumping := false } := by
      simp [dinoJumpEndStep, h1, h3]
    rw [e2]
    refine ⟨rfl, h2, ?_⟩
    intro now2
    simp [dinoInputStep, h2]

/-- C7 witness: the amended semantics applied to the concrete buffered
input state at times 500 and 501. -/
theorem C7_jump_input_semantics_witness :
    (dinoJumpEndStep 500 (dinoInputStep 500 dinoCexState)).isJumping
      = false ∧
    (dinoInputStep 501
      (dinoJumpEndStep 500 (dinoInputStep 500 dinoCexState))).isJumping
      = true := by
  have h := (C7_jump_input_semantics 500 dinoCexState).2.2.2
    (by decide) (by decide) (by decide)
  exact ⟨h.1, h.2.2 501⟩

/-- Helper: the occupancy scan is false exactly when the cell is not a
listed segment. -/
theorem bodyOccupies_false :
    ∀ (body : List Cell) (c : Cell),
      bodyOccupies body c = false ↔ c ∉ body := by
  intro body c
  rw [← Bool.not_eq_true, bodyOccupies, List.any_eq_true]
  simp only [beq_iff_eq, not_exists]
  constructor
  · intro h hc
    exact h c ⟨hc, rfl⟩
  · intro h x hx
    rcases hx with ⟨hx1, hx2⟩
    exact h (hx2 ▸ hx1)

/-- Helper: the spawnFood retry loop returns the first unoccupied draw of
its window, or the final draw (kept even when occupied) when every draw
of the window hit the body. -/
theorem spawnFoodGo_spec :
    ∀ (fuel t : Nat) (rand : Nat → Cell) (body : List Cell),
      bodyOccupies body (spawnFoodGo rand body t fuel) = false ∨
      ((∀ i : Nat, i ≤ fuel → bodyOccupies body (rand (t + i)) = true) ∧
        spawnFoodGo rand body t fuel = rand (t + fuel)) := by
  intro fuel
  induction fuel with
  | zero =>
    intro t rand body
    by_cases h : bodyOccupies body (rand t) = true
    · right
      refine ⟨?_, by simp [spawnFoodGo]⟩
      intro i hi
      interval_cases i
      simpa using h
    · left
      have hf : bodyOccupies body (rand t) = false := by
        simpa using h
      simp only [spawnFoodGo]
      exact hf
  | succ n ih =>
    intro t rand body
    by_cases h : bodyOccupies body (rand t) = true
    · rcases ih (t + 1) rand body with hfree | ⟨hall, heq⟩
      · left
        simpa [spawnFoodGo, h] using hfree
      · right
        constructor
        · intro i hi
          cases i with
          | zero => simpa using h
          | succ j =>
            have hj : j ≤ n := by omega
            have hx := hall j hj
            have e : t + 1 + j = t + (j + 1) := by omega
            rwa [e] at hx
        · have e : t + 1 + n = t + (n + 1) := by omega
          calc spawnFoodGo rand body t (n + 1)
              = spawnFoodGo rand body (t + 1) n := by
                simp [spawnFoodGo, h]
            _ = rand (t + (n + 1)) := by rw [heq, e]
    · left
      have hf : bodyOccupies body (rand t) = false := by simpa using h
      simp [spawnFoodGo, hf]

/-- C8 counterexample: the claim states that when every retry finds an
occupied cell the food position is left unchanged.  In the concrete run
the reset places the food at (8, 5); the first movement tick eats it and
respawns with a stream whose 200 draws all hit the body, and the food
ends at (7, 5), a cell occupied by the post tick body, not at its old
position. -/
theorem C8_exhausted_spawn_moves_food :
    (snakeTickWithInput noTurn cexRandStuck (resetSnake cexRandReset)).map
        (fun s1 => (s1.food, bodyOccupies s1.snakeBody s1.food)) =
      some (((7 : Int), (5 : Int)), true) ∧
    (resetSnake cexRandReset).food = ((8 : Int), (5 : Int)) ∧
    ((7 : Int), (5 : Int)) ≠ ((8 : Int), (5 : Int)) := by
  refine ⟨by decide, by decide, by decide⟩

/-- C8 amended: spawnFood returns the first of at most 200 random draws
that misses the snake body (so the new food cell is unoccupied whenever
any retry succeeds); when all 200 draws hit the body it returns the final
draw even though occupied, rather than leaving the food unchanged. In
either case it is a total function: no error state and no death arises
from exhaustion. -/
theorem C8_spawnFood_characterisation :
    ∀ (rand : Nat → Cell) (body : List Cell),
      bodyOccupies body (spawnFood rand body) = false ∨
      ((∀ i : Nat, i < 200 → bodyOccupies body (rand i) = true) ∧
        spawnFood rand body = rand 199) := by
  intro rand body
  rcases spawnFoodGo_spec 199 0 rand body with h | ⟨h1, h2⟩
  · left
    exact h
  · right
    constructor
    · intro i hi
      have := h1 i (by omega)
      simpa using this
    · simpa [spawnFood] using h2

/-- C8 witness: the characterisation instantiated at the empty body and a
constant stream. -/
theorem C8_spawnFood_characterisation_witness :
    bodyOccupies [] (spawnFood constFood []) = false ∨
    ((∀ i : Nat, i < 200 → bodyOccupies [] (constFood i) = true) ∧
      spawnFood constFood [] = constFood 199) :=
  C8_spawnFood_characterisation constFood []

/-- C10 counterexample: a concrete run reachable from resetSnake (legal
single direction inputs, possible random outcomes) in which no tick ends
in death and the final body holds the cell (7, 5) twice: the exhausted
food spawn parked the food under the body, and eating it while it was
the tail grew the snake onto its own tail cell. -/
theorem C10_duplicate_after_tick :
    cexRun = some
      { snakeBody := [(7, 5), (7, 6), (8, 6), (8, 5), (7, 5)],
        snakeDir := 0, snakePendingDir := 0, snakeSpeed := 300,
        snakeScore := 2, food := (0, 0) } ∧
    ¬ ([(7, 5), (7, 6), (8, 6), (8, 5), (7, 5)] : List Cell).Nodup := by
  refine ⟨by decide, by decide⟩

/-- C10 amended: the reset body is duplicate free, and every non death
movement tick preserves pairwise distinct segments provided the food
cell is not currently occupied by the body, which is the case whenever
the random placements so far succeeded within their retry budget.  An
exhausted spawn can park the food on the body, after which eating it
while it coincides with the tail duplicates a segment. -/
theorem C10_nodup_preserved :
    ∀ (rand : Nat → Cell) (s s2 : SnakeState),
      (resetSnake rand).snakeBody.Nodup ∧
      (s.snakeBody.Nodup → bodyOccupies s.snakeBody s.food = false →
        snakeMoveTick rand s = some s2 → s2.snakeBody.Nodup) := by
  intro rand s s2
  constructor
  · have e : (resetSnake rand).snakeBody = [(7, 5), (6, 5), (5, 5)] := rfl
    rw [e]
    decide
  · intro h1 h2 h3
    have hfood : s.food ∉ s.snakeBody := (bodyOccupies_false _ _).mp h2
    simp only [snakeMoveTick] at h3
    split at h3
    · exact absurd h3 (by simp)
    · split at h3
      · exact absurd h3 (by simp)
      · rename_i hocc
        have hoccF :
            bodyOccupies
              (s.snakeBody.take (s.snakeBody.length - 1))
              (snakeNewHead s.snakePendingDir (s.snakeBody.headD (0, 0)))
              = false := by
          simpa using hocc
        have hnotin :
            snakeNewHead s.snakePendingDir (s.snakeBody.headD (0, 0)) ∉
              s.snakeBody.take (s.snakeBody.length - 1) :=
          (bodyOccupies_false _ _).mp hoccF
        rcases ite_eq_iff.mp h3 with ⟨hate, h4⟩ | ⟨hate, h4⟩ <;>
          injection h4 with h5
        · subst h5
          have hnh :
              snakeNewHead s.snakePendingDir (s.snakeBody.headD (0, 0))
                = s.food := by
            simpa using hate
          by_cases hg :
              ((snakeNewHead s.snakePendingDir (s.snakeBody.headD (0, 0))
                  == s.food) &&
                decide (s.snakeBody.length < SNAKE_MAX_LENGTH)) = true
          · simp only [hg, if_true]
            exact List.nodup_cons.mpr ⟨hnh ▸ hfood, h1⟩
          · simp only [hg, if_false]
            refine List.nodup_cons.mpr ⟨?_, ?_⟩
            · intro hmem
              exact hfood (hnh ▸ List.dropLast_subset _ hmem)
            · exact List.Nodup.sublist (List.dropLast_sublist _) h1
        · subst h5
          have hateF :
              (snakeNewHead s.snakePendingDir (s.snakeBody.headD (0, 0))
                == s.food) = false := by
            simpa using hate
          have hgF :
              ((snakeNewHead s.snakePendingDir (s.snakeBody.headD (0, 0))
                  == s.food) &&
                decide (s.snakeBody.length < SNAKE_MAX_LENGTH)) = false := by
            rw [hateF]
            simp
          simp only [hgF, if_false]
          refine List.nodup_cons.mpr ⟨?_, ?_⟩
          · rw [List.dropLast_eq_take]
            exact hnotin
          · exact List.Nodup.sublist (List.dropLast_sublist _) h1

/-- C10 witness: the preservation part applied to a concrete duplicate
free state with the food off the body, across one non death tick. -/
theorem C10_nodup_preserved_witness :
    snakeMoveTick cexRandFree snakeWitState = some snakeWitState2 ∧
    snakeWitState2.snakeBody.Nodup := by
  refine ⟨by decide, ?_⟩
  exact (C10_nodup_preserved cexRandFree snakeWitState snakeWitState2).2
    (by decide) (by decide) (by decide)
